import Mathlib

/-!
Verification development for the FireBreath browser-stream abstraction and
event-dispatch fabric (src/src/PluginCore/BrowserStream.h) and the ActiveX
control safety-negotiation boundary (src/src/ActiveXCore/FBControl.h).

Shallow embedding conventions:
- C++ DWORD values are Nat, constrained to `< 2 ^ 32` where bit-level
  faithfulness matters; bitwise operators are Nat's `&&&`, `|||`, `^^^`.
- HRESULT codes are the usual 32-bit constants as Nat.
- Output pointers are modelled by a Bool "is null" input plus an
  `Option Nat` recording what (if anything) was written through them.
- Stateful member functions become pure functions from the relevant state
  to (result, new state, fired events).
-/

/-! ## HRESULT constants and COM safety flags -/

def S_OK : Nat := 0

def E_POINTER : Nat := 0x80004003

def E_FAIL : Nat := 0x80004005

def E_NOINTERFACE : Nat := 0x80004002

/-- SUCCEEDED(hr) for a 32-bit HRESULT: the sign bit is clear. -/
def SUCCEEDED (hr : Nat) : Bool := hr < 0x80000000

def INTERFACESAFE_FOR_UNTRUSTED_CALLER : Nat := 1

def INTERFACESAFE_FOR_UNTRUSTED_DATA : Nat := 2

/-- DWORD with every bit set; xor with it is the C bitwise complement `~` on DWORDs. -/
def dwordOnes : Nat := 2 ^ 32 - 1

/-- Bitwise complement of a DWORD value. -/
def complement32 (x : Nat) : Nat := x ^^^ dwordOnes

/-- CFBControl::getSupportedObjectSafety (FBControl.h lines 206-210):
returns INTERFACESAFE_FOR_UNTRUSTED_CALLER | INTERFACESAFE_FOR_UNTRUSTED_DATA. -/
def getSupportedObjectSafety : Nat :=
  INTERFACESAFE_FOR_UNTRUSTED_CALLER ||| INTERFACESAFE_FOR_UNTRUSTED_DATA

/-- Result of CFBControl::GetClassID: the HRESULT and what was written
through pClassID (none when nothing was written). -/
structure GetClassIDResult where
  hr : Nat
  writtenClassID : Option Nat
deriving Repr, DecidableEq

/-- CFBControl::GetClassID (FBControl.h lines 306-313): if pClassID is NULL
return E_POINTER; otherwise write GetObjectCLSID() through it and return S_OK.
The CLSID is abstracted as a Nat supplied by the instantiation. -/
def getClassID (pClassIDNull : Bool) (objectCLSID : Nat) : GetClassIDResult :=
  if pClassIDNull then ⟨E_POINTER, none⟩
  else ⟨S_OK, some objectCLSID⟩

/-- Result of CFBControl::GetInterfaceSafetyOptions: the HRESULT and what was
written through pdwSupportedOptions and pdwEnabledOptions. -/
structure GetSafetyResult where
  hr : Nat
  writtenSupported : Option Nat
  writtenEnabled : Option Nat
deriving Repr, DecidableEq

/-- CFBControl::GetInterfaceSafetyOptions (FBControl.h lines 321-340): if either
output pointer is NULL return E_POINTER writing nothing; otherwise query the
requested interface (the QueryInterface HRESULT is the parameter qiHr); on
success write (getSupportedObjectSafety, m_dwCurrentSafety), on failure write
(0, 0); either way return the QueryInterface HRESULT. -/
def getInterfaceSafetyOptions (pdwSupportedNull pdwEnabledNull : Bool)
    (qiHr : Nat) (curSafety : Nat) : GetSafetyResult :=
  if pdwSupportedNull || pdwEnabledNull then ⟨E_POINTER, none, none⟩
  else if SUCCEEDED qiHr then ⟨qiHr, some getSupportedObjectSafety, some curSafety⟩
  else ⟨qiHr, some 0, some 0⟩

/-- Result of CFBControl::SetInterfaceSafetyOptions: the HRESULT and the value
of m_dwCurrentSafety after the call. -/
structure SetSafetyResult where
  hr : Nat
  safety : Nat
deriving Repr, DecidableEq

/-- CFBControl::SetInterfaceSafetyOptions (FBControl.h lines 342-356): if
QueryInterface on riid fails (qiSupported = false) return E_NOINTERFACE; if
dwOptionSetMask has a bit outside getSupportedObjectSafety() return E_FAIL;
otherwise m_dwCurrentSafety = (m_dwCurrentSafety & ~dwOptionSetMask) |
(dwOptionSetMask & dwEnabledOptions) and return S_OK. -/
def setInterfaceSafetyOptions (qiSupported : Bool)
    (dwOptionSetMask dwEnabledOptions curSafety : Nat) : SetSafetyResult :=
  if !qiSupported then ⟨E_NOINTERFACE, curSafety⟩
  else if dwOptionSetMask &&& complement32 getSupportedObjectSafety ≠ 0 then
    ⟨E_FAIL, curSafety⟩
  else
    ⟨S_OK, (curSafety &&& complement32 dwOptionSetMask) |||
           (dwOptionSetMask &&& dwEnabledOptions)⟩

/-! ## C9: null mandatory output pointers at the host boundary -/

/-- C9: at the host collaborator boundary a null mandatory output pointer is a
hard failure to the immediate caller with no output written: GetClassID with a
null pClassID returns E_POINTER and writes nothing, and
GetInterfaceSafetyOptions with a null pdwSupportedOptions or a null
pdwEnabledOptions returns E_POINTER and writes nothing. -/
theorem c9_null_pointer_hard_failure (objectCLSID qiHr curSafety : Nat)
    (ns ne : Bool) (h : ns = true ∨ ne = true) :
    getClassID true objectCLSID = ⟨E_POINTER, none⟩ ∧
    getInterfaceSafetyOptions ns ne qiHr curSafety = ⟨E_POINTER, none, none⟩ := by
  refine ⟨rfl, ?_⟩
  rcases h with h | h <;> simp [getInterfaceSafetyOptions, h]

/-- Witness for C9 at a concrete null-pointer call. -/
theorem c9_null_pointer_hard_failure_witness :
    ((true : Bool) = true ∨ (false : Bool) = true) ∧
    (getClassID true 77 = ⟨E_POINTER, none⟩ ∧
     getInterfaceSafetyOptions true false 0 3 = ⟨E_POINTER, none, none⟩) :=
  ⟨Or.inl rfl, c9_null_pointer_hard_failure 77 0 3 true false (Or.inl rfl)⟩

/-! ## C10: SetInterfaceSafetyOptions masked update -/

/-- Counterexample for C10 as stated: with an unsupported riid (QueryInterface
fails) and dwOptionSetMask = 4 (a bit outside getSupportedObjectSafety() = 3),
SetInterfaceSafetyOptions returns E_NOINTERFACE, not the claimed E_FAIL. -/
theorem c10_counterexample :
    (4 &&& complement32 getSupportedObjectSafety ≠ 0) ∧
    (setInterfaceSafetyOptions false 4 0 0).hr = E_NOINTERFACE ∧
    (setInterfaceSafetyOptions false 4 0 0).hr ≠ E_FAIL := by
  refine ⟨by decide, rfl, by decide⟩

/-- Bit-level reading of the C masked update `(cur & ~mask) | (mask & enabled)`
on DWORD-sized values. -/
theorem masked_update_testBit (cur mask enabled i : Nat)
    (hm : mask < 2 ^ 32) (hc : cur < 2 ^ 32) :
    ((cur &&& complement32 mask) ||| (mask &&& enabled)).testBit i
      = if mask.testBit i then enabled.testBit i else cur.testBit i := by
  unfold complement32 dwordOnes
  rw [Nat.testBit_or, Nat.testBit_and, Nat.testBit_and, Nat.testBit_xor,
    Nat.testBit_two_pow_sub_one]
  by_cases hi : i < 32
  · by_cases hb : mask.testBit i <;> simp [hb, hi]
  · have hle : (2 : Nat) ^ 32 ≤ 2 ^ i := Nat.pow_le_pow_right (by norm_num) (by omega)
    have h1 : mask.testBit i = false := Nat.testBit_lt_two_pow (lt_of_lt_of_le hm hle)
    have h2 : cur.testBit i = false := Nat.testBit_lt_two_pow (lt_of_lt_of_le hc hle)
    simp [h1, h2, hi]

/-- C10 amended: provided the requested interface is supported (QueryInterface
succeeds), if dwOptionSetMask has any bit outside getSupportedObjectSafety()
the call returns E_FAIL with m_dwCurrentSafety unchanged; otherwise it returns
S_OK, bits of m_dwCurrentSafety outside dwOptionSetMask are unchanged, and
bits inside dwOptionSetMask become the corresponding bits of
dwEnabledOptions. -/
theorem c10_set_safety_masked_update (mask enabled cur : Nat)
    (hm : mask < 2 ^ 32) (hc : cur < 2 ^ 32) :
    (mask &&& complement32 getSupportedObjectSafety ≠ 0 →
       setInterfaceSafetyOptions true mask enabled cur = ⟨E_FAIL, cur⟩) ∧
    (mask &&& complement32 getSupportedObjectSafety = 0 →
       (setInterfaceSafetyOptions true mask enabled cur).hr = S_OK ∧
       (∀ i, mask.testBit i = false →
          ((setInterfaceSafetyOptions true mask enabled cur).safety).testBit i
            = cur.testBit i) ∧
       (∀ i, mask.testBit i = true →
          ((setInterfaceSafetyOptions true mask enabled cur).safety).testBit i
            = enabled.testBit i)) := by
  have hsafety : (setInterfaceSafetyOptions true mask enabled cur).safety
      = (cur &&& complement32 mask) ||| (mask &&& enabled) ∨
      mask &&& complement32 getSupportedObjectSafety ≠ 0 := by
    by_cases h : mask &&& complement32 getSupportedObjectSafety ≠ 0
    · exact Or.inr h
    · exact Or.inl (by simp [setInterfaceSafetyOptions, h])
  constructor
  · intro h
    simp [setInterfaceSafetyOptions, h]
  · intro h
    have hs : (setInterfaceSafetyOptions true mask enabled cur).safety
        = (cur &&& complement32 mask) ||| (mask &&& enabled) := by
      rcases hsafety with hs | hs
      · exact hs
      · exact absurd h hs
    refine ⟨by simp [setInterfaceSafetyOptions, h], ?_, ?_⟩
    · intro i hbit
      rw [hs, masked_update_testBit cur mask enabled i hm hc, hbit]
      simp
    · intro i hbit
      rw [hs, masked_update_testBit cur mask enabled i hm hc, hbit]
      simp

/-- Witness for C10 at mask = 1, enabled = 1, cur = 2. -/
theorem c10_set_safety_masked_update_witness :
    (1 < 2 ^ 32 ∧ 2 < 2 ^ 32) ∧
    ((1 &&& complement32 getSupportedObjectSafety ≠ 0 →
       setInterfaceSafetyOptions true 1 1 2 = ⟨E_FAIL, 2⟩) ∧
     (1 &&& complement32 getSupportedObjectSafety = 0 →
       (setInterfaceSafetyOptions true 1 1 2).hr = S_OK ∧
       (∀ i, Nat.testBit 1 i = false →
          ((setInterfaceSafetyOptions true 1 1 2).safety).testBit i
            = Nat.testBit 2 i) ∧
       (∀ i, Nat.testBit 1 i = true →
          ((setInterfaceSafetyOptions true 1 1 2).safety).testBit i
            = Nat.testBit 1 i))) :=
  ⟨⟨by norm_num, by norm_num⟩,
   c10_set_safety_masked_update 1 1 2 (by norm_num) (by norm_num)⟩

/-! ## Stream events and the per-sink dispatch table -/

/-- The six stream event kinds (StreamEvents.h tags referenced by
BrowserStream.h): StreamCreatedEvent, StreamDestroyedEvent,
StreamFailedOpenEvent, StreamOpenedEvent, StreamDataArrivedEvent,
StreamCompletedEvent. -/
inductive StreamEvKind where
  | created
  | destroyed
  | failedOpen
  | opened
  | dataArrived
  | completed
deriving Repr, DecidableEq

/-- A registered handler: an identity used to count invocations, plus the
boolean the handler returns (whether it consumed the event). -/
structure Handler where
  hid : Nat
  ret : Bool
deriving Repr, DecidableEq

/-- Modelled from the spec: the BEGIN_PLUGIN_EVENT_MAP / EVENTTYPE_CASE /
END_PLUGIN_EVENT_MAP macros (PluginEventSink.h, not under src/) generate a
per-sink-type HandleEvent that tests the incoming event's kind against each
registered entry in declaration order and invokes the first matching handler,
returning its boolean; when no entry matches it returns false. The result is
the dispatch boolean paired with the list of handler ids invoked. -/
def dispatchChain : List (StreamEvKind × Handler) → StreamEvKind → Bool × List Nat
  | [], _ => (false, [])
  | e :: rest, ev => if e.1 = ev then (e.2.ret, [e.2.hid]) else dispatchChain rest ev

/-- Follows the spec's words (section 4.1): a hand-written sink's dispatch
looks up the handler registered for the event's kind; if none is registered it
returns false (not handled) without error; if one is registered it is invoked
exactly once and its boolean return becomes the dispatch result. -/
def specSinkDispatch (pairs : List (StreamEvKind × Handler)) (ev : StreamEvKind) :
    Bool × List Nat :=
  match pairs.find? (fun q => decide (q.1 = ev)) with
  | none => (false, [])
  | some p => (p.2.ret, [p.2.hid])

theorem dispatchChain_eq_find (table : List (StreamEvKind × Handler))
    (ev : StreamEvKind) :
    dispatchChain table ev = specSinkDispatch table ev := by
  induction table with
  | nil => rfl
  | cons hd tl ih =>
    by_cases h : hd.1 = ev <;>
      simp [dispatchChain, specSinkDispatch, List.find?_cons, h] <;>
      simpa [specSinkDispatch] using ih

theorem dispatchChain_invocations_le_one (table : List (StreamEvKind × Handler))
    (ev : StreamEvKind) : (dispatchChain table ev).2.length ≤ 1 := by
  induction table with
  | nil => simp [dispatchChain]
  | cons hd tl ih =>
    by_cases h : hd.1 = ev <;> simp [dispatchChain, h] <;> exact ih

/-! ## C4: dispatch-table lookup semantics -/

/-- C4: for every sink dispatch table and event kind, dispatch equals the
single lookup of the first handler registered for that kind — an unregistered
kind yields (false, no invocation) without error, a registered kind invokes
exactly that handler — and no dispatch call ever invokes more than one handler
for one event. -/
theorem c4_dispatch_lookup (table : List (StreamEvKind × Handler))
    (ev : StreamEvKind) :
    ((∀ p ∈ table, p.1 ≠ ev) → dispatchChain table ev = (false, [])) ∧
    (∀ p, table.find? (fun q => decide (q.1 = ev)) = some p →
        dispatchChain table ev = (p.2.ret, [p.2.hid])) ∧
    (dispatchChain table ev).2.length ≤ 1 := by
  refine ⟨?_, ?_, dispatchChain_invocations_le_one table ev⟩
  · intro hnone
    rw [dispatchChain_eq_find]
    unfold specSinkDispatch
    have : table.find? (fun q => decide (q.1 = ev)) = none := by
      rw [List.find?_eq_none]
      intro p hp
      simpa using hnone p hp
    rw [this]
  · intro p hp
    rw [dispatchChain_eq_find]
    unfold specSinkDispatch
    rw [hp]

/-- Witness for C4 on a concrete table: kind dataArrived is unregistered,
kind created is registered once. -/
theorem c4_dispatch_lookup_witness :
    ((∀ p ∈ [(StreamEvKind.created, (⟨7, true⟩ : Handler))],
        p.1 ≠ StreamEvKind.dataArrived) →
      dispatchChain [(StreamEvKind.created, (⟨7, true⟩ : Handler))]
        StreamEvKind.dataArrived = (false, [])) ∧
    (∀ p, [(StreamEvKind.created, (⟨7, true⟩ : Handler))].find?
          (fun q => decide (q.1 = StreamEvKind.dataArrived)) = some p →
        dispatchChain [(StreamEvKind.created, (⟨7, true⟩ : Handler))]
          StreamEvKind.dataArrived = (p.2.ret, [p.2.hid])) ∧
    (dispatchChain [(StreamEvKind.created, (⟨7, true⟩ : Handler))]
        StreamEvKind.dataArrived).2.length ≤ 1 :=
  c4_dispatch_lookup [(StreamEvKind.created, (⟨7, true⟩ : Handler))]
    StreamEvKind.dataArrived

/-! ## C6: DefaultBrowserStreamHandler as a convenience sink -/

/-- Modelled from the spec: the unoverridden DefaultBrowserStreamHandler hook
onStreamCreated (body in BrowserStream.cpp, not under src/) performs no action
and returns false. Hooks carry a numeric identity for invocation counting. -/
def onStreamCreated : Handler := ⟨0, false⟩

/-- Modelled from the spec: unoverridden onStreamDestroyed hook, no action,
returns false. -/
def onStreamDestroyed : Handler := ⟨1, false⟩

/-- Modelled from the spec: unoverridden onStreamFailedOpen hook, no action,
returns false. -/
def onStreamFailedOpen : Handler := ⟨2, false⟩

/-- Modelled from the spec: unoverridden onStreamOpened hook, no action,
returns false. -/
def onStreamOpened : Handler := ⟨3, false⟩

/-- Modelled from the spec: unoverridden onStreamDataArrived hook, no action,
returns false. -/
def onStreamDataArrived : Handler := ⟨4, false⟩

/-- Modelled from the spec: unoverridden onStreamCompleted hook, no action,
returns false. -/
def onStreamCompleted : Handler := ⟨5, false⟩

/-- DefaultBrowserStreamHandler event map (BrowserStream.h lines 268-275): the
six EVENTTYPE_CASE entries in declaration order. -/
def defaultBrowserStreamHandlerMap : List (StreamEvKind × Handler) :=
  [(StreamEvKind.created, onStreamCreated),
   (StreamEvKind.destroyed, onStreamDestroyed),
   (StreamEvKind.failedOpen, onStreamFailedOpen),
   (StreamEvKind.opened, onStreamOpened),
   (StreamEvKind.dataArrived, onStreamDataArrived),
   (StreamEvKind.completed, onStreamCompleted)]

/-- C6: every unoverridden DefaultBrowserStreamHandler hook returns false (and,
being pure data here, performs no action), and dispatch through the
DefaultBrowserStreamHandler event map coincides with a hand-written sink
declaring the same six (event-kind, handler) pairs, for every stream event
kind. -/
theorem c6_default_handler_refines (ev : StreamEvKind) :
    dispatchChain defaultBrowserStreamHandlerMap ev
      = specSinkDispatch defaultBrowserStreamHandlerMap ev ∧
    (dispatchChain defaultBrowserStreamHandlerMap ev).1 = false ∧
    (∀ p ∈ defaultBrowserStreamHandlerMap, p.2.ret = false) := by
  refine ⟨dispatchChain_eq_find _ _, ?_, by decide⟩
  cases ev <;> decide

/-! ## BrowserStream state, construction, getters, readRange, close -/

/-- The BrowserStream data members (BrowserStream.h lines 237-248). Strings
stand in for std::string / std::wstring and Nat for size_t. -/
structure StreamRec where
  url : String
  seekable : Bool
  cached : Bool
  internalBufferSize : Nat
  cacheFilename : String
  length : Nat
  mimeType : String
  completed : Bool
  opened : Bool
  headers : String
deriving Repr, DecidableEq

/-- Modelled from the spec: the BrowserStream constructor (declared at
BrowserStream.h line 64, body in BrowserStream.cpp, not under src/) takes
(url, cache, seekable, internalBufferSize) and stores them; the stream starts
neither opened nor completed, with no host-reported metadata yet. -/
def mkBrowserStream (url : String) (cache seekable : Bool)
    (internalBufferSize : Nat) : StreamRec :=
  { url := url, seekable := seekable, cached := cache,
    internalBufferSize := internalBufferSize, cacheFilename := "",
    length := 0, mimeType := "", completed := false, opened := false,
    headers := "" }

/-- Observation produced by a property getter: the value read, the stream
state after the call, and the events fired during the call. -/
structure GetterObs (α : Type) where
  value : α
  after : StreamRec
  fired : List StreamEvKind
deriving Repr

/-- Modelled from the spec: BrowserStream::getUrl (declaration BrowserStream.h
line 139, body not under src/) is a pure read of the url member. -/
def getUrl (s : StreamRec) : GetterObs String := ⟨s.url, s, []⟩

/-- Modelled from the spec: BrowserStream::isSeekable, pure read. -/
def isSeekable (s : StreamRec) : GetterObs Bool := ⟨s.seekable, s, []⟩

/-- Modelled from the spec: BrowserStream::isCached, pure read. -/
def isCached (s : StreamRec) : GetterObs Bool := ⟨s.cached, s, []⟩

/-- Modelled from the spec: BrowserStream::isCompleted, pure read. -/
def isCompleted (s : StreamRec) : GetterObs Bool := ⟨s.completed, s, []⟩

/-- Modelled from the spec: BrowserStream::isOpen, pure read. -/
def isOpen (s : StreamRec) : GetterObs Bool := ⟨s.opened, s, []⟩

/-- Modelled from the spec: BrowserStream::getMimeType, pure read. -/
def getMimeType (s : StreamRec) : GetterObs String := ⟨s.mimeType, s, []⟩

/-- Modelled from the spec: BrowserStream::getCacheFilename, pure read. -/
def getCacheFilename (s : StreamRec) : GetterObs String := ⟨s.cacheFilename, s, []⟩

/-- Modelled from the spec: BrowserStream::getHeaders, pure read. -/
def getHeaders (s : StreamRec) : GetterObs String := ⟨s.headers, s, []⟩

/-- Modelled from the spec: BrowserStream::getInternalBufferSize, pure read. -/
def getInternalBufferSize (s : StreamRec) : GetterObs Nat :=
  ⟨s.internalBufferSize, s, []⟩

/-- Modelled from the spec: BrowserStream::getLength, pure read. -/
def getLength (s : StreamRec) : GetterObs Nat := ⟨s.length, s, []⟩

/-! ## C7: construction and pure getters -/

/-- C7: a BrowserStream constructed from (url, cache, seekable,
internalBufferSize) reads back exactly those values through getUrl, isCached,
isSeekable and getInternalBufferSize, and every property getter is a pure
read: it leaves the stream state unchanged and fires no event (no host
interaction). -/
theorem c7_constructor_getters (url : String) (cache seekable : Bool)
    (internalBufferSize : Nat) (s : StreamRec) :
    (getUrl (mkBrowserStream url cache seekable internalBufferSize)).value = url ∧
    (isCached (mkBrowserStream url cache seekable internalBufferSize)).value = cache ∧
    (isSeekable (mkBrowserStream url cache seekable internalBufferSize)).value = seekable ∧
    (getInternalBufferSize (mkBrowserStream url cache seekable internalBufferSize)).value
      = internalBufferSize ∧
    (getUrl s).after = s ∧ (getUrl s).fired = [] ∧
    (isSeekable s).after = s ∧ (isSeekable s).fired = [] ∧
    (isCached s).after = s ∧ (isCached s).fired = [] ∧
    (isCompleted s).after = s ∧ (isCompleted s).fired = [] ∧
    (isOpen s).after = s ∧ (isOpen s).fired = [] ∧
    (getMimeType s).after = s ∧ (getMimeType s).fired = [] ∧
    (getCacheFilename s).after = s ∧ (getCacheFilename s).fired = [] ∧
    (getHeaders s).after = s ∧ (getHeaders s).fired = [] ∧
    (getInternalBufferSize s).after = s ∧ (getInternalBufferSize s).fired = [] ∧
    (getLength s).after = s ∧ (getLength s).fired = [] := by
  repeat first
  | exact rfl
  | constructor

/-! ## C1: readRange precondition rejection -/

/-- Modelled from the spec: BrowserStream::readRange (declared BrowserStream.h
lines 76-87, body not under src/) is valid only while the stream is open and
seekable; when the stream is not seekable or not open it returns false
immediately, firing no event and leaving the stream untouched (precondition
rejection); otherwise the asynchronous request is accepted and it returns
true, the data arriving later through events. -/
def readRange (s : StreamRec) (rstart rend : Nat) :
    Bool × StreamRec × List StreamEvKind :=
  if s.seekable && s.opened then (true, s, [])
  else (false, s, [])

/-- C1: readRange on a stream whose seekable flag is false, or which is not
open, returns false synchronously, fires no event, and leaves the stream
state unchanged. -/
theorem c1_readRange_precondition_rejection (s : StreamRec) (rstart rend : Nat)
    (h : s.seekable = false ∨ s.opened = false) :
    readRange s rstart rend = (false, s, []) := by
  rcases h with h | h <;> simp [readRange, h]

/-- Witness for C1: a freshly constructed seekable stream is not yet open, so
readRange is rejected. -/
theorem c1_readRange_precondition_rejection_witness :
    ((mkBrowserStream "http://x/y" true true 4096).seekable = false ∨
     (mkBrowserStream "http://x/y" true true 4096).opened = false) ∧
    readRange (mkBrowserStream "http://x/y" true true 4096) 0 500
      = (false, mkBrowserStream "http://x/y" true true 4096, []) :=
  ⟨Or.inr rfl,
   c1_readRange_precondition_rejection
     (mkBrowserStream "http://x/y" true true 4096) 0 500 (Or.inr rfl)⟩

/-! ## C3: close is idempotent -/

/-- A stream together with its lifecycle destruction flag: BrowserStream is
destroyed when close() succeeds, firing StreamDestroyed before release. -/
structure StreamLife where
  st : StreamRec
  destroyed : Bool
deriving Repr, DecidableEq

/-- Modelled from the spec: BrowserStream::close (pure virtual at
BrowserStream.h lines 116-125; host implementations not under src/) requests
termination; it is idempotent with respect to observable state — on an
already destroyed stream it is a no-op success firing nothing — and on first
success it fires StreamDestroyed and moves the stream to Destroyed. -/
def close (s : StreamLife) : Bool × StreamLife × List StreamEvKind :=
  if s.destroyed then (true, s, [])
  else (true, { st := s.st, destroyed := true }, [StreamEvKind.destroyed])

/-- Counts the StreamDestroyed events in a fired-event list. -/
def countDestroyed (evs : List StreamEvKind) : Nat :=
  evs.countP (fun e => decide (e = StreamEvKind.destroyed))

/-- C3: calling close() a second time after a successful close() is an
observable no-op: the second call returns success, changes no observable
state, fires nothing, and across both calls StreamDestroyed fires at most
once. -/
theorem c3_close_idempotent (s : StreamLife) :
    (close (close s).2.1).1 = true ∧
    (close (close s).2.1).2.1 = (close s).2.1 ∧
    (close (close s).2.1).2.2 = [] ∧
    countDestroyed ((close s).2.2 ++ (close (close s).2.1).2.2) ≤ 1 := by
  by_cases h : s.destroyed <;> simp [close, h, countDestroyed]

/-! ## C8: the Range value type -/

/-- BrowserStream::Range (BrowserStream.h lines 49-54): a pair of size_t byte
offsets with a two-argument constructor; the fields are plain public data
members and the declaration places no constraint between them. -/
structure Range where
  start : Nat
  «end» : Nat
deriving Repr, DecidableEq

/-- Modelled from the spec: the Range constructor (body in BrowserStream.cpp,
not under src/) stores the byte offsets supplied by the caller of a range
read, verbatim. -/
def Range.make (rstart rend : Nat) : Range := ⟨rstart, rend⟩

/-- Counterexample for C8 as stated: nothing enforces start < end, so a caller
can construct Range(5, 3), which violates the claimed invariant. -/
theorem c8_counterexample :
    ¬ ((Range.make 5 3).start < (Range.make 5 3).«end») := by
  decide

/-- C8 amended: Range stores the caller's offsets verbatim, so start < end is
a caller obligation rather than a constructor-enforced invariant: whenever the
caller supplies start < end, the constructed Range's fields equal those
arguments and satisfy start < end; construction itself never alters them. -/
theorem c8_range_invariant (rstart rend : Nat) (h : rstart < rend) :
    (Range.make rstart rend).start = rstart ∧
    (Range.make rstart rend).«end» = rend ∧
    (Range.make rstart rend).start < (Range.make rstart rend).«end» :=
  ⟨rfl, rfl, h⟩

/-- Witness for C8 at the range [0, 500). -/
theorem c8_range_invariant_witness :
    0 < 500 ∧
    ((Range.make 0 500).start = 0 ∧
     (Range.make 0 500).«end» = 500 ∧
     (Range.make 0 500).start < (Range.make 0 500).«end») :=
  ⟨by norm_num, c8_range_invariant 0 500 (by norm_num)⟩

/-! ## C2: the completed flag is terminal for data arrival -/

/-- True exactly on the StreamOpened / StreamFailedOpen resolution events. -/
def isOpenResolution (e : StreamEvKind) : Bool :=
  match e with
  | StreamEvKind.opened => true
  | StreamEvKind.failedOpen => true
  | _ => false

/-- True exactly on StreamDataArrived events. -/
def isDataArrivedEv (e : StreamEvKind) : Bool :=
  match e with
  | StreamEvKind.dataArrived => true
  | _ => false

/-- Modelled from the spec: BrowserStream::setCompleted (declared
BrowserStream.h line 229, body not under src/) is invoked with true exactly in
reaction to the host's completion notification, so after the stream has fired
a prefix of its event trace the completed flag is true iff that prefix
contains StreamCompleted. -/
def completedAfter (processed : List StreamEvKind) : Bool :=
  decide (StreamEvKind.completed ∈ processed)

/-- Modelled from the spec: a valid per-stream fired-event trace. The stream
fires Created first; the host then delivers exactly one of open-success /
open-failure, followed by zero or more data arrivals and exactly one
completion; Destroyed, when fired, is last (spec sections 5 and 6). -/
def ValidTrace (t : List StreamEvKind) : Prop :=
  ∃ (o : StreamEvKind) (das post : List StreamEvKind),
    (o = StreamEvKind.opened ∨ o = StreamEvKind.failedOpen) ∧
    (∀ e ∈ das, e = StreamEvKind.dataArrived) ∧
    (post = [] ∨ post = [StreamEvKind.destroyed]) ∧
    t = StreamEvKind.created :: o :: (das ++ StreamEvKind.completed :: post)

/-- C2: on any valid stream trace, once the completed flag is true (the fired
prefix contains StreamCompleted) no StreamDataArrived event is fired
afterwards, and the fired prefix contains exactly one
StreamOpened-or-StreamFailedOpen event. -/
theorem c2_completed_terminal (t pre rest : List StreamEvKind)
    (hv : ValidTrace t) (hsplit : t = pre ++ rest)
    (hc : completedAfter pre = true) :
    rest.countP isDataArrivedEv = 0 ∧ pre.countP isOpenResolution = 1 := by
  obtain ⟨o, das, post, ho, hdas, hpost, ht⟩ := hv
  have hmem : StreamEvKind.completed ∈ pre := by
    simpa [completedAfter] using hc
  have heq : pre ++ rest
      = (StreamEvKind.created :: o :: das) ++ (StreamEvKind.completed :: post) := by
    rw [← hsplit, ht]
    simp
  have hB : ∀ e ∈ (StreamEvKind.completed :: post),
      isOpenResolution e = false ∧ isDataArrivedEv e = false := by
    intro e he
    rcases hpost with h | h <;> subst h
    · rcases List.mem_cons.mp he with rfl | h2
      · exact ⟨rfl, rfl⟩
      · simp at h2
    · rcases List.mem_cons.mp he with rfl | h2
      · exact ⟨rfl, rfl⟩
      · rcases List.mem_cons.mp h2 with rfl | h3
        · exact ⟨rfl, rfl⟩
        · simp at h3
  rcases List.append_eq_append_iff.mp heq with ⟨k, hA, hrest⟩ | ⟨k, hpre, hBk⟩
  · exfalso
    have hmemA : StreamEvKind.completed ∈ (StreamEvKind.created :: o :: das) := by
      rw [hA]
      exact List.mem_append.mpr (Or.inl hmem)
    rcases List.mem_cons.mp hmemA with h | hmemA2
    · exact StreamEvKind.noConfusion h
    rcases List.mem_cons.mp hmemA2 with h | hdasmem
    · rcases ho with ho | ho <;> rw [ho] at h <;> exact StreamEvKind.noConfusion h
    · exact StreamEvKind.noConfusion (hdas _ hdasmem)
  · constructor
    · apply List.countP_eq_zero.mpr
      intro e he
      have heB : e ∈ StreamEvKind.completed :: post := by
        rw [hBk]
        exact List.mem_append.mpr (Or.inr he)
      simp [(hB e heB).2]
    · have hdas0 : das.countP isOpenResolution = 0 := by
        apply List.countP_eq_zero.mpr
        intro e he
        rw [hdas e he]
        decide
      have hk0 : k.countP isOpenResolution = 0 := by
        apply List.countP_eq_zero.mpr
        intro e he
        have heB : e ∈ StreamEvKind.completed :: post := by
          rw [hBk]
          exact List.mem_append.mpr (Or.inl he)
        simp [(hB e heB).1]
      have hres : isOpenResolution o = true := by
        rcases ho with h | h <;> rw [h] <;> rfl
      rw [hpre, List.countP_append, hk0,
        List.countP_cons_of_neg _ _
          (by decide : ¬ isOpenResolution StreamEvKind.created = true),
        List.countP_cons_of_pos _ _ hres, hdas0]

/-- Witness for C2 on the concrete trace Created, Opened, DataArrived,
Completed, Destroyed split right after Completed. -/
theorem c2_completed_terminal_witness :
    (ValidTrace [StreamEvKind.created, StreamEvKind.opened,
        StreamEvKind.dataArrived, StreamEvKind.completed, StreamEvKind.destroyed] ∧
     ([StreamEvKind.created, StreamEvKind.opened, StreamEvKind.dataArrived,
        StreamEvKind.completed, StreamEvKind.destroyed] : List StreamEvKind)
       = [StreamEvKind.created, StreamEvKind.opened, StreamEvKind.dataArrived,
          StreamEvKind.completed] ++ [StreamEvKind.destroyed] ∧
     completedAfter [StreamEvKind.created, StreamEvKind.opened,
        StreamEvKind.dataArrived, StreamEvKind.completed] = true) ∧
    (([StreamEvKind.destroyed] : List StreamEvKind).countP isDataArrivedEv = 0 ∧
     ([StreamEvKind.created, StreamEvKind.opened, StreamEvKind.dataArrived,
        StreamEvKind.completed] : List StreamEvKind).countP isOpenResolution = 1) :=
  ⟨⟨⟨StreamEvKind.opened, [StreamEvKind.dataArrived], [StreamEvKind.destroyed],
      Or.inl rfl, by decide, Or.inr rfl, rfl⟩, rfl, by decide⟩,
   c2_completed_terminal _ _ _
     ⟨StreamEvKind.opened, [StreamEvKind.dataArrived], [StreamEvKind.destroyed],
      Or.inl rfl, by decide, Or.inr rfl, rfl⟩ rfl (by decide)⟩

/-! ## C5: fire() iterates a snapshot, tolerating detach during dispatch -/

/-- Scripted behavior of a sink's dispatch handler: the boolean it returns and
the sinks it detaches from the firing source while handling the event. -/
structure SinkBeh where
  ret : Bool
  detaches : List Nat
deriving Repr

/-- Modelled from the spec: one pass of PluginEventSource::FireEvent
(PluginEventSource, not under src/) over the snapshot of the attachment list
taken when firing started. Sinks are identified by Nat. Each snapshotted sink
is taken in attachment order; a sink that has been detached from the live list
by the time its turn comes is skipped (a sink detached mid-pass must not
receive the in-progress event); every other snapshotted sink is dispatched to
regardless of any sink's return value, and its handler's detach calls are
applied to the live attachment list. Returns (sinks the event was delivered
to, in order; final attachment list). -/
def firePass (beh : Nat → SinkBeh) : List Nat → List Nat → List Nat × List Nat
  | [], cur => ([], cur)
  | s :: rest, cur =>
    if s ∈ cur then
      let r := firePass beh rest (cur.filter (fun x => decide (x ∉ (beh s).detaches)))
      (s :: r.1, r.2)
    else firePass beh rest cur

/-- Modelled from the spec: fire(event) — snapshot the current attachment list
and run the delivery pass over it. -/
def fire (beh : Nat → SinkBeh) (attached : List Nat) : List Nat × List Nat :=
  firePass beh attached attached

theorem firePass_delivered_sublist (beh : Nat → SinkBeh) (snap : List Nat) :
    ∀ cur, (firePass beh snap cur).1.Sublist snap := by
  induction snap with
  | nil => intro cur; simp [firePass]
  | cons s rest ih =>
    intro cur
    by_cases h : s ∈ cur
    · simp only [firePass, h, if_pos]
      exact List.Sublist.cons₂ s (ih _)
    · simp only [firePass, h, if_neg, not_false_iff]
      exact List.Sublist.cons s (ih cur)

theorem firePass_not_delivered_of_not_mem (beh : Nat → SinkBeh) (snap : List Nat) :
    ∀ cur y, y ∉ cur → y ∉ (firePass beh snap cur).1 := by
  induction snap with
  | nil => intro cur y _; simp [firePass]
  | cons s rest ih =>
    intro cur y hy
    by_cases h : s ∈ cur
    · simp only [firePass, h, if_pos]
      intro hmem
      rcases List.mem_cons.mp hmem with rfl | hmem2
      · exact hy h
      · exact ih _ y (fun hc => hy (List.mem_of_mem_filter hc)) hmem2
    · simp only [firePass, h, if_neg, not_false_iff]
      exact ih cur y hy

theorem firePass_delivers_undetached (beh : Nat → SinkBeh) (snap : List Nat) :
    ∀ cur y, y ∈ cur → y ∈ snap →
      (∀ s ∈ snap, y ∉ (beh s).detaches) →
      y ∈ (firePass beh snap cur).1 := by
  induction snap with
  | nil => intro cur y _ hsnap _; simp at hsnap
  | cons s rest ih =>
    intro cur y hcur hsnap hnd
    by_cases h : s ∈ cur
    · simp only [firePass, h, if_pos]
      rcases List.mem_cons.mp hsnap with rfl | hrest
      · exact List.mem_cons_self _ _
      · refine List.mem_cons_of_mem _ (ih _ y ?_ hrest ?_)
        · exact List.mem_filter.mpr
            ⟨hcur, by simpa using hnd s (List.mem_cons_self _ _)⟩
        · intro s2 hs2
          exact hnd s2 (List.mem_cons_of_mem _ hs2)
    · rcases List.mem_cons.mp hsnap with rfl | hrest
      · exact absurd hcur h
      · simp only [firePass, h, if_neg, not_false_iff]
        exact ih cur y hcur hrest (fun s2 hs2 => hnd s2 (List.mem_cons_of_mem _ hs2))

theorem firePass_no_detach_delivers_all (beh : Nat → SinkBeh) (snap : List Nat)
    (hnd : ∀ s, (beh s).detaches = []) :
    ∀ cur, (∀ z ∈ snap, z ∈ cur) → (firePass beh snap cur).1 = snap := by
  induction snap with
  | nil => intro cur _; simp [firePass]
  | cons s rest ih =>
    intro cur hsub
    have hs : s ∈ cur := hsub s (List.mem_cons_self _ _)
    simp only [firePass, hs, if_pos]
    have hfix : cur.filter (fun x => decide (x ∉ (beh s).detaches)) = cur := by
      apply List.filter_eq_self.mpr
      intro a _
      simp [hnd s]
    rw [hfix]
    have := ih cur (fun z hz => hsub z (List.mem_cons_of_mem _ hz))
    simp [this]

theorem firePass_ret_independent (beh beh2 : Nat → SinkBeh)
    (hag : ∀ s, (beh s).detaches = (beh2 s).detaches) (snap : List Nat) :
    ∀ cur, firePass beh snap cur = firePass beh2 snap cur := by
  induction snap with
  | nil => intro cur; rfl
  | cons s rest ih =>
    intro cur
    by_cases h : s ∈ cur
    · simp only [firePass, h, if_pos, hag s, ih]
    · simp only [firePass, h, if_neg, not_false_iff, ih]

theorem firePass_detach_skips (beh : Nat → SinkBeh) (x y : Nat)
    (hdet : y ∈ (beh x).detaches) :
    ∀ (l1 l2 cur : List Nat), (l1 ++ x :: l2).Nodup → y ∈ l2 →
      x ∈ (firePass beh (l1 ++ x :: l2) cur).1 →
      y ∉ (firePass beh (l1 ++ x :: l2) cur).1 := by
  intro l1
  induction l1 with
  | nil =>
    intro l2 cur hnd hy hx
    simp only [List.nil_append] at *
    by_cases h : x ∈ cur
    · simp only [firePass, h, if_pos]
      intro hmem
      rcases List.mem_cons.mp hmem with rfl | hmem2
      · exact (List.nodup_cons.mp hnd).1 hy
      · refine firePass_not_delivered_of_not_mem beh l2 _ y ?_ hmem2
        intro hc
        have := (List.mem_filter.mp hc).2
        simp at this
        exact this hdet
    · exfalso
      apply firePass_not_delivered_of_not_mem beh (x :: l2) cur x h
      exact hx
  | cons a l1' ih =>
    intro l2 cur hnd hy hx
    have hnd2 : (l1' ++ x :: l2).Nodup := (List.nodup_cons.mp (by simpa using hnd)).2
    have hamem : a ∉ l1' ++ x :: l2 := (List.nodup_cons.mp (by simpa using hnd)).1
    have hay : a ≠ y := by
      intro e
      subst e
      exact hamem (List.mem_append.mpr (Or.inr (List.mem_cons_of_mem _ hy)))
    have hax : a ≠ x := by
      intro e
      subst e
      exact hamem (List.mem_append.mpr (Or.inr (List.mem_cons_self _ _)))
    by_cases h : a ∈ cur
    · simp only [List.cons_append, firePass, h, if_pos] at hx ⊢
      intro hmem
      rcases List.mem_cons.mp hmem with rfl | hmem2
      · exact hay rfl
      · rcases List.mem_cons.mp hx with rfl | hx2
        · exact hax rfl
        · exact ih l2 _ hnd2 hy hx2 hmem2
    · simp only [List.cons_append, firePass, h, if_neg, not_false_iff] at hx ⊢
      exact ih l2 cur hnd2 hy hx

/-- Sanity check: with sink 1 detaching sink 2 mid-pass, fire over the
snapshot [1, 2, 3] delivers to 1 and 3 only and leaves [1, 3] attached. -/
theorem fire_detach_example :
    fire (fun s => if s = 1 then ⟨true, [2]⟩ else ⟨false, []⟩) [1, 2, 3]
      = ([1, 3], [1, 3]) := by
  decide

/-- C5: fire(event) delivers to the snapshot of the sinks attached when the
pass began, as a subsequence in attachment order; delivery does not depend on
any sink's return value; with no detaching handlers every snapshotted sink
receives the event; a sink detached by a handler that ran earlier in the pass
does not receive the in-progress event; and when handlers detach only one
given sink, every other snapshotted sink still receives the event. -/
theorem c5_fire_snapshot (beh : Nat → SinkBeh) (attached : List Nat)
    (hnd : attached.Nodup) :
    (fire beh attached).1.Sublist attached ∧
    ((∀ s, (beh s).detaches = []) → (fire beh attached).1 = attached) ∧
    (∀ beh2, (∀ s, (beh s).detaches = (beh2 s).detaches) →
        (fire beh2 attached).1 = (fire beh attached).1) ∧
    (∀ l1 x l2 y, attached = l1 ++ x :: l2 → y ∈ l2 → y ∈ (beh x).detaches →
        x ∈ (fire beh attached).1 → y ∉ (fire beh attached).1) ∧
    (∀ y z, (∀ s ∈ attached, ∀ d ∈ (beh s).detaches, d = y) → z ∈ attached →
        z ≠ y → z ∈ (fire beh attached).1) := by
  refine ⟨firePass_delivered_sublist beh attached attached, ?_, ?_, ?_, ?_⟩
  · intro hnodet
    exact firePass_no_detach_delivers_all beh attached hnodet attached
      (fun z hz => hz)
  · intro beh2 hag
    show (firePass beh2 attached attached).1 = (firePass beh attached attached).1
    rw [firePass_ret_independent beh beh2 hag attached attached]
  · intro l1 x l2 y hsplit hy hdet hx
    subst hsplit
    exact firePass_detach_skips beh x y hdet l1 l2 _ hnd hy hx
  · intro y z hsubs hz hzy
    exact firePass_delivers_undetached beh attached attached z hz hz
      (fun s hs hc => hzy (hsubs s hs _ hc))

/-- Witness for C5 on the snapshot [1, 2, 3] where sink 1 detaches sink 2. -/
theorem c5_fire_snapshot_witness :
    ([1, 2, 3] : List Nat).Nodup ∧
    ((fire (fun s => if s = 1 then ⟨true, [2]⟩ else ⟨false, []⟩) [1, 2, 3]).1.Sublist
        [1, 2, 3] ∧
     ((∀ s, ((fun s => if s = 1 then (⟨true, [2]⟩ : SinkBeh) else ⟨false, []⟩) s).detaches
          = []) →
        (fire (fun s => if s = 1 then ⟨true, [2]⟩ else ⟨false, []⟩) [1, 2, 3]).1
          = [1, 2, 3]) ∧
     (∀ beh2,
        (∀ s, ((fun s => if s = 1 then (⟨true, [2]⟩ : SinkBeh) else ⟨false, []⟩) s).detaches
            = (beh2 s).detaches) →
        (fire beh2 [1, 2, 3]).1
          = (fire (fun s => if s = 1 then ⟨true, [2]⟩ else ⟨false, []⟩) [1, 2, 3]).1) ∧
     (∀ l1 x l2 y, ([1, 2, 3] : List Nat) = l1 ++ x :: l2 → y ∈ l2 →
        y ∈ ((fun s => if s = 1 then (⟨true, [2]⟩ : SinkBeh) else ⟨false, []⟩) x).detaches →
        x ∈ (fire (fun s => if s = 1 then ⟨true, [2]⟩ else ⟨false, []⟩) [1, 2, 3]).1 →
        y ∉ (fire (fun s => if s = 1 then ⟨true, [2]⟩ else ⟨false, []⟩) [1, 2, 3]).1) ∧
     (∀ y z,
        (∀ s ∈ ([1, 2, 3] : List Nat),
          ∀ d ∈ ((fun s => if s = 1 then (⟨true, [2]⟩ : SinkBeh) else ⟨false, []⟩) s).detaches,
            d = y) →
        z ∈ ([1, 2, 3] : List Nat) → z ≠ y →
        z ∈ (fire (fun s => if s = 1 then ⟨true, [2]⟩ else ⟨false, []⟩) [1, 2, 3]).1)) :=
  ⟨by decide,
   c5_fire_snapshot (fun s => if s = 1 then ⟨true, [2]⟩ else ⟨false, []⟩) [1, 2, 3]
     (by decide)⟩

/-- Witness for C6 at the concrete StreamCreatedEvent kind. -/
theorem c6_default_handler_refines_witness :
    dispatchChain defaultBrowserStreamHandlerMap StreamEvKind.created
      = specSinkDispatch defaultBrowserStreamHandlerMap StreamEvKind.created ∧
    (dispatchChain defaultBrowserStreamHandlerMap StreamEvKind.created).1 = false ∧
    (∀ p ∈ defaultBrowserStreamHandlerMap, p.2.ret = false) :=
  c6_default_handler_refines StreamEvKind.created
